import Mathlib

/-
Verification of the real-time client core of the carrier portal
(app/static/js/shipments.js, app/static/js/websocket.js,
app/static/js/dashboard.js) against its natural-language specification.

The JavaScript is embedded shallowly: DOM state that the handlers read or
write (table rows, status badges, toasts, modals, checkbox sets, the
selection Set, pending AJAX requests) is made explicit as Lean structures,
and each handler becomes a pure function on that state.  JavaScript-specific
semantics that the code relies on are modelled explicitly:
string coercion of `undefined` (jsStr), the falsiness of the empty string
under `||` (jsOrString), `String.prototype.replace` with a string pattern
replacing only the first occurrence (replaceFirstSpaceChars), and a thrown
TypeError aborting the rest of a handler while leaving already-performed
DOM mutations in place (the Bool component of updateRows).
-/

namespace TFST

/-- JavaScript string coercion of a possibly-`undefined` value, as produced
by `'text' + x` or a template literal: `undefined` prints as "undefined". -/
def jsStr : Option String → String
  | none => "undefined"
  | some s => s

/-- JavaScript `x || dflt` on a possibly-`undefined` string: both
`undefined` and the empty string are falsy and select the default. -/
def jsOrString : Option String → String → String
  | none, dflt => dflt
  | some s, dflt => if s = "" then dflt else s

/-- `String.prototype.replace(' ', '-')` with a string pattern replaces only
the first occurrence of the space. -/
def replaceFirstSpaceChars : List Char → List Char
  | [] => []
  | c :: cs => if c = ' ' then '-' :: cs else c :: replaceFirstSpaceChars cs

/-- JavaScript `toLowerCase()` on the character lists of our strings. -/
def jsToLower (s : String) : String :=
  String.mk (s.data.map Char.toLower)

/-- The status slug `status.toLowerCase().replace(' ', '-')` used in both
shipments.js (line 166) and websocket.js (line 156). -/
def statusSlug (status : String) : String :=
  String.mk (replaceFirstSpaceChars (jsToLower status).data)

/-- The class list installed on a status badge by
`removeClass().addClass('badge status-badge status-' + slug)`. -/
def statusBadgeClasses (status : String) : List String :=
  ["badge", "status-badge", "status-" ++ statusSlug status]

/-- One rendered table row: its `data-shipment-id`, the text of its
`.status-badge`, the class list of that badge, and whether the row
currently carries the transient highlight class (`table-info` in
websocket.js, `table-warning` in shipments.js). -/
structure Row where
  id : String
  statusText : String
  badgeClasses : List String
  highlight : Bool
deriving DecidableEq

/-- Payload of a `shipment_update` socket event.  `current_status = none`
models a malformed payload whose `current_status` field is `undefined`. -/
structure ShipmentUpdateData where
  shipment_id : String
  current_status : Option String
deriving DecidableEq

/-- The `#shipmentDetailModal` pane when it is open: its `data-shipment-id`
and the texts of `#currentStatus` and `#lastUpdated`. -/
structure DetailModal where
  shipment_id : String
  currentStatus : String
  lastUpdated : String
deriving DecidableEq

/-- One emergency-alert modal appended by `showEmergencyAlert`
(websocket.js lines 212-255).  The markup uses a static backdrop and an
explicit Acknowledge button; no dismissal timer is ever scheduled for it,
recorded as `autoDismissAt = none`. -/
structure EmergencyModal where
  shipment_id : String
  alert_message : String
  location : Option (String × String)
  staticBackdrop : Bool
  autoDismissAt : Option Nat
deriving DecidableEq

/-- Client view state mutated by the TFSTWebSocket handlers: the rendered
table, the optional open detail modal, the toast notifications appended to
`body` in DOM order, and the emergency-alert modals currently appended. -/
structure WSState where
  table : List Row
  detailModal : Option DetailModal
  toasts : List String
  modals : List EmergencyModal
deriving DecidableEq

/-- The `.shipment-row[data-shipment-id=...]` `.each` loop of
`updateShipmentDisplay` (websocket.js lines 150-162).  For each matching
row the badge is `removeClass()`d and then re-classed and re-texted.  When
`current_status` is `undefined`, evaluating
`data.current_status.toLowerCase()` throws a TypeError: by then
`removeClass()` has already stripped the first matching badge, so the
traversal returns the partially mutated table and `false` (the exception
aborts the rest of the handler); rows after the throw point are untouched.
With no matching row the loop body never runs, so a malformed payload does
not throw here (`true`). -/
def updateRows (d : ShipmentUpdateData) : List Row → List Row × Bool
  | [] => ([], true)
  | r :: rs =>
    if r.id = d.shipment_id then
      match d.current_status with
      | none => ({ r with badgeClasses := [] } :: rs, false)
      | some st =>
        let p := updateRows d rs
        ({ r with badgeClasses := statusBadgeClasses st, statusText := st,
                  highlight := true } :: p.1, p.2)
    else
      let p := updateRows d rs
      (r :: p.1, p.2)

/-- The effect of a well-formed update on a single row: matching rows get
the new badge classes, status text and the highlight class; all other rows
are untouched. -/
def rowApply (eid st : String) (r : Row) : Row :=
  if r.id = eid then
    { r with badgeClasses := statusBadgeClasses st, statusText := st,
             highlight := true }
  else r

/-- The status text a row with id `rid` and current text `old` displays
after one event: a well-formed matching event installs its status, a
non-matching or malformed event leaves the text as it was. -/
def statusAfter (d : ShipmentUpdateData) (rid old : String) : String :=
  match d.current_status with
  | some st => if rid = d.shipment_id then st else old
  | none => old

/-- Detail-pane update of `updateShipmentDisplay` (websocket.js lines
165-171): if the detail modal is open for exactly this shipment, set
`#currentStatus` (jQuery `.text(undefined)` renders "undefined") and
`#lastUpdated`. -/
def updateDetail (d : ShipmentUpdateData) : Option DetailModal → Option DetailModal
  | none => none
  | some m =>
    if m.shipment_id = d.shipment_id then
      some { m with currentStatus := jsStr d.current_status,
                    lastUpdated := "Just now" }
    else some m

/-- Toast text of `handleShipmentUpdate` (websocket.js line 112). -/
def notifMsg (d : ShipmentUpdateData) : String :=
  "Shipment " ++ d.shipment_id ++ " updated: " ++ jsStr d.current_status

/-- `handleShipmentUpdate` (websocket.js lines 104-113): broadcast the
document event (no handler for `shipment:update` is registered anywhere in
the sources, so it has no state effect), run `updateShipmentDisplay`, then
show the toast.  If the display update threw, the exception propagates out
of the socket callback: the detail pane is not touched and no toast is
shown, but the partial table mutation persists.  Each socket message is
delivered as its own event-loop task, so the uncaught exception aborts only
this application; the next message is processed normally. -/
def handleShipmentUpdate (d : ShipmentUpdateData) (s : WSState) : WSState :=
  let p := updateRows d s.table
  if p.2 then
    { s with table := p.1, detailModal := updateDetail d s.detailModal,
             toasts := s.toasts ++ [notifMsg d] }
  else
    { s with table := p.1 }

/-- Reception of a sequence of `shipment_update` socket messages, one
event-loop task per message. -/
def processEvents (es : List ShipmentUpdateData) (s : WSState) : WSState :=
  es.foldl (fun acc e => handleShipmentUpdate e acc) s

/-- The status carried by the last event in `es` that targets `id` and is
well formed, if any; later events take precedence. -/
def lastWF : List ShipmentUpdateData → String → Option String
  | [], _ => none
  | e :: es, id =>
    match lastWF es id with
    | some st => some st
    | none => if e.shipment_id = id then e.current_status else none

/-- Payload of an `emergency_alert` socket event.  The location, when
present, only feeds the modal text, so it is carried as the rendered
lat/lng strings. -/
structure EmergencyAlertData where
  shipment_id : String
  alert_message : String
  location : Option (String × String)
deriving DecidableEq

/-- `showEmergencyAlert` (websocket.js lines 212-255): build the urgent
modal markup (static backdrop, Acknowledge button, no auto-hide of any
kind), append it to `body` and show it.  The modal element is removed only
by its own `hidden.bs.modal` event, i.e. after an explicit dismissal. -/
def showEmergencyAlert (d : EmergencyAlertData) (s : WSState) : WSState :=
  { s with modals := s.modals ++
      [{ shipment_id := d.shipment_id, alert_message := d.alert_message,
         location := d.location, staticBackdrop := true,
         autoDismissAt := none }] }

/-- `handleEmergencyAlert` (websocket.js lines 123-132): show the modal,
broadcast `emergency:alert` on the document (no handler for it is
registered anywhere in the sources) and play the alert sound (audio only,
no view-state effect).  Note that `showNotification` is NOT called here:
no toast is enqueued for an emergency alert. -/
def handleEmergencyAlert (d : EmergencyAlertData) (s : WSState) : WSState :=
  showEmergencyAlert d s

/-- State of the shipments page driven by shipments.js: the rendered table,
the toasts appended to `body`, and the set of shipment ids whose
`POST /shipments/id/update-status` request is currently awaiting its
callback.  `inFlight` is runtime state of the pending `$.ajax` call in
`updateShipmentStatus` (lines 125-145): an id enters it when the request is
dispatched and leaves it when the success or error callback runs. -/
structure PageState where
  table : List Row
  toasts : List String
  inFlight : List String
deriving DecidableEq

/-- Toast text of `handleRealtimeUpdate` (shipments.js line 174). -/
def pageNotifMsg (d : ShipmentUpdateData) : String :=
  d.shipment_id ++ " updated: " ++ jsStr d.current_status

/-- `handleRealtimeUpdate` (shipments.js lines 161-175).  The jQuery set of
matching rows is updated in place when non-empty: badges are
`removeClass()`d, re-classed, re-texted, and the rows get the
`table-warning` highlight; the toast is shown afterwards in every case.
With a malformed payload and a matching row, `removeClass()` has already
run on the matched badges when the template literal throws, so those
badges lose their classes and no toast appears.  The handler consults
nothing but the DOM and its payload: in particular it never looks at
`inFlight` and it maintains no queue of deferred remote events. -/
def handleRealtimeUpdate (d : ShipmentUpdateData) (s : PageState) : PageState :=
  if s.table.any (fun r => r.id = d.shipment_id) then
    match d.current_status with
    | some st =>
      { s with
        table := s.table.map (rowApply d.shipment_id st),
        toasts := s.toasts ++ [pageNotifMsg d] }
    | none =>
      { s with
        table := s.table.map (fun r =>
          if r.id = d.shipment_id then { r with badgeClasses := [] } else r) }
  else
    { s with toasts := s.toasts ++ [pageNotifMsg d] }

/-- Dispatch of the bulk status-update request in `updateShipmentStatus`
(shipments.js line 126): the `$.ajax` POST becomes pending for this
shipment until one of its callbacks runs. -/
def updateShipmentStatusSend (id : String) (s : PageState) : PageState :=
  { s with inFlight := s.inFlight ++ [id] }

/-- Body of the `/shipments/id/update-status` JSON response, as read by the
callbacks: a `success` flag and an optional `error` string. -/
structure UpdateResponse where
  success : Bool
  error : Option String
deriving DecidableEq

/-- Resolution of the `$.ajax` call: either the `success:` callback runs
with the parsed response, or the `error:` callback runs with
`xhr.responseJSON` whose only consulted field is `error` (absent JSON or an
absent field both read as `undefined`). -/
inductive AjaxOutcome where
  | ok (response : UpdateResponse)
  | httpError (errorField : Option String)
deriving DecidableEq

/-- The user-visible effects computed by one callback run. -/
structure CallbackEffects where
  notifMessage : String
  notifType : String
  hideModal : Bool
  didRefresh : Bool
deriving DecidableEq

/-- The callbacks of `updateShipmentStatus` (shipments.js lines 131-143).
`success` with `response.success` shows the success toast, hides the modal
and calls `refreshData()`; `success` with a false flag concatenates
`response.error` directly (JS `+` renders an absent field as "undefined")
and does not refresh; the HTTP `error` callback applies the
`|| 'Server error'` fallback and does not refresh. -/
def updateStatusCallback : AjaxOutcome → CallbackEffects
  | .ok r =>
    if r.success then
      { notifMessage := "Status updated successfully", notifType := "success",
        hideModal := true, didRefresh := true }
    else
      { notifMessage := "Failed to update status: " ++ jsStr r.error,
        notifType := "error", hideModal := false, didRefresh := false }
  | .httpError errF =>
    { notifMessage := "Update failed: " ++ jsOrString errF "Server error",
      notifType := "error", hideModal := false, didRefresh := false }

/-- Whether an AJAX outcome indicates success in the sense of the response
contract (`{success : boolean}` over HTTP 2xx). -/
def ajaxIndicatesSuccess : AjaxOutcome → Bool
  | .ok r => r.success
  | .httpError _ => false

/-- Completion of the pending request: the callback effects fire and the
shipment id stops being in flight. -/
def updateShipmentStatusResolve (id : String) (o : AjaxOutcome)
    (s : PageState) : PageState :=
  { s with inFlight := s.inFlight.erase id,
           toasts := s.toasts ++ [(updateStatusCallback o).notifMessage] }

/-- The selection Set created by the TFSTShipments constructor
(shipments.js line 8): `new Set()`. -/
def tfstShipmentsInitSelection : List String := []

/-- JS `Set.prototype.add`: append when not already present. -/
def setAdd (s : List String) (x : String) : List String :=
  if x ∈ s then s else s ++ [x]

/-- `refreshData` (shipments.js lines 192-194) is `location.reload()`: the
page is reloaded and the new TFSTShipments constructor builds a fresh,
empty selection Set, whatever ids the reloaded table renders. -/
def refreshSelection (sel renderedAfter : List String) : List String :=
  tfstShipmentsInitSelection

/-- Modelled from the spec (section 4.5), for comparison with
`refreshSelection`: `prune(currentlyRenderedIds)` intersects the selection
set with the newly rendered id set, dropping stale selections. -/
def specPrune (sel rendered : List String) : List String :=
  sel.filter (fun x => x ∈ rendered)

/-- One rendered `.shipment-checkbox`: its `value` (the shipment id) and
its `checked` property. -/
structure CheckboxRow where
  id : String
  checked : Bool
deriving DecidableEq

/-- `$('.shipment-checkbox:checked').length`. -/
def countChecked (rows : List CheckboxRow) : Nat :=
  rows.countP (fun r => r.checked)

/-- The `checked` / `indeterminate` properties written onto `#selectAll`. -/
structure SelectAllProps where
  checked : Bool
  indeterminate : Bool
deriving DecidableEq

/-- The two `prop` writes of `handleShipmentSelect` (shipments.js lines
82-83): `checked` is `totalCheckboxes === checkedBoxes` and
`indeterminate` is `checkedBoxes > 0 && checkedBoxes < totalCheckboxes`. -/
def selectAllProps (rows : List CheckboxRow) : SelectAllProps :=
  { checked := rows.length == countChecked rows,
    indeterminate :=
      decide (0 < countChecked rows) && decide (countChecked rows < rows.length) }

/-- `handleShipmentSelect` (shipments.js lines 68-86) for a change event on
the checkbox at index `i`: the browser has already flipped the checkbox
when the handler runs, so `e.target.checked` is the negation of the old
value; the selection Set is updated accordingly and the `#selectAll`
tri-state is recomputed from the post-toggle checkbox set. -/
def handleShipmentSelect (rows : List CheckboxRow) (sel : List String)
    (i : Nat) : List CheckboxRow × List String × SelectAllProps :=
  match rows.get? i with
  | some r =>
    let rows' := rows.set i { r with checked := !r.checked }
    let sel' := if !r.checked then setAdd sel r.id else sel.erase r.id
    (rows', sel', selectAllProps rows')
  | none => (rows, sel, selectAllProps rows)

/-- The `.alert` toast elements currently appended to `body`, in DOM
order (jQuery `append` places new toasts last). -/
structure AlertsDom where
  alerts : List String
deriving DecidableEq

/-- The fixed auto-dismiss delay of `showNotification`
(shipments.js line 189, dashboard.js line 543): 5000 time units. -/
def notifDismissDelay : Nat := 5000

/-- A timer created by `setTimeout` in `showNotification`: when it will
fire, and the DOM index of the alert whose enqueue created it (the entry
the timer is nominally for; the callback itself carries no reference to
it). -/
structure NotifTimer where
  fireAt : Nat
  createdForIndex : Nat
deriving DecidableEq

/-- `showNotification` (shipments.js lines 177-190; dashboard.js lines
528-544 is the same pattern): append the alert markup to `body` and
schedule `setTimeout(() => $('.alert').last().alert('close'), 5000)`. -/
def showNotificationEnqueue (msg : String) (now : Nat) (dom : AlertsDom) :
    AlertsDom × NotifTimer :=
  ({ alerts := dom.alerts ++ [msg] },
   { fireAt := now + notifDismissDelay, createdForIndex := dom.alerts.length })

/-- The timer callback `$('.alert').last().alert('close')`: it re-queries
the DOM at fire time and closes whichever alert is then last, reporting
which entry was dismissed. -/
def alertTimerFire (dom : AlertsDom) : AlertsDom × Option String :=
  ({ alerts := dom.alerts.dropLast }, dom.alerts.getLast?)

/-- Connection state of the TFSTWebSocket client (websocket.js): the
`connected` flag set on `connect` and cleared on `disconnect`. -/
structure WSConn where
  connected : Bool
deriving DecidableEq

/-- Client-originated socket events (websocket.js lines 271-293). -/
inductive OutboundMsg where
  | subscribeShipment (shipment_id : String)
  | unsubscribeShipment (shipment_id : String)
  | requestStatus (shipment_id : String)
  | pingMsg
deriving DecidableEq

/-- `subscribeToShipment` (websocket.js lines 271-275): emit only when
`this.connected`. -/
def subscribeToShipment (id : String) (c : WSConn) : WSConn × List OutboundMsg :=
  if c.connected then (c, [OutboundMsg.subscribeShipment id]) else (c, [])

/-- `unsubscribeFromShipment` (websocket.js lines 277-281). -/
def unsubscribeFromShipment (id : String) (c : WSConn) : WSConn × List OutboundMsg :=
  if c.connected then (c, [OutboundMsg.unsubscribeShipment id]) else (c, [])

/-- `requestShipmentStatus` (websocket.js lines 283-287). -/
def requestShipmentStatus (id : String) (c : WSConn) : WSConn × List OutboundMsg :=
  if c.connected then (c, [OutboundMsg.requestStatus id]) else (c, [])

/-- `ping` (websocket.js lines 289-293). -/
def ping (c : WSConn) : WSConn × List OutboundMsg :=
  if c.connected then (c, [OutboundMsg.pingMsg]) else (c, [])

/-- The keep-alive interval of websocket.js lines 301-305: 30000 time
units between ticks. -/
def keepAliveInterval : Nat := 30000

/-- Body of the `setInterval` keep-alive tick (websocket.js lines
301-305): it simply calls `ping()`. -/
def pingKeepAliveTick (c : WSConn) : WSConn × List OutboundMsg :=
  ping c

/-- Brute-force substring test, used to state what it means for a
notification to "carry" a server-provided message. -/
def strContains (hay needle : String) : Bool :=
  (List.range (hay.data.length + 1)).any
    (fun i => List.isPrefixOf needle.data (hay.data.drop i))

/-- Modelled from the spec (section 7, `RequestError`), for comparison with
`updateStatusCallback`: a failure notification is acceptable iff it carries
the server-provided error message when one is provided, and the generic
fallback "Server error" when none is. -/
def specFailureNotificationOK (serverErr : Option String) (msg : String) : Bool :=
  match serverErr with
  | some e => if e = "" then strContains msg "Server error" else strContains msg e
  | none => strContains msg "Server error"

/-- A well-formed event updates the table rows exactly pointwise and does
not throw. -/
theorem updateRows_wf (d : ShipmentUpdateData) (st : String)
    (h : d.current_status = some st) (t : List Row) :
    updateRows d t = (t.map (rowApply d.shipment_id st), true) := by
  induction t with
  | nil => simp [updateRows]
  | cons r rs ih =>
    by_cases hid : r.id = d.shipment_id
    · simp [updateRows, hid, h, rowApply, ih]
    · simp [updateRows, hid, rowApply, ih]

/-- A row whose id does not match keeps its displayed status. -/
theorem statusAfter_of_ne (d : ShipmentUpdateData) (rid old : String)
    (h : rid ≠ d.shipment_id) : statusAfter d rid old = old := by
  cases hc : d.current_status <;> simp [statusAfter, hc, h]

/-- All ids, and all status texts as transformed by `statusAfter`, survive
one `updateShipmentDisplay` traversal pointwise, whether or not the event
payload was malformed. -/
theorem updateRows_pair {α : Type} (d : ShipmentUpdateData)
    (g : String → String → α) (t : List Row) :
    (updateRows d t).1.map (fun r => g r.id r.statusText) =
      t.map (fun r => g r.id (statusAfter d r.id r.statusText)) := by
  induction t with
  | nil => simp [updateRows]
  | cons r rs ih =>
    by_cases hid : r.id = d.shipment_id
    · cases hc : d.current_status with
      | none =>
        have htail : (fun (a : Row) => g a.id (statusAfter d a.id a.statusText)) =
            fun a => g a.id a.statusText :=
          funext fun a => by simp [statusAfter, hc]
        simp [updateRows, hid, hc, htail]
      | some st =>
        have hs : statusAfter d d.shipment_id r.statusText = st := by
          simp [statusAfter, hc]
        simp [updateRows, hid, hc, ih, hs]
    · have hs : statusAfter d r.id r.statusText = r.statusText :=
        statusAfter_of_ne d r.id r.statusText hid
      simp [updateRows, hid, ih, hs]

/-- The table produced by `handleShipmentUpdate` is the table produced by
the display traversal, in both the normal and the throwing case. -/
theorem handleShipmentUpdate_table (d : ShipmentUpdateData) (s : WSState) :
    (handleShipmentUpdate d s).table = (updateRows d s.table).1 := by
  unfold handleShipmentUpdate
  cases h : (updateRows d s.table).2 <;> simp [h]

/-- Pointwise id/status view of one event application. -/
theorem handleShipmentUpdate_pair {α : Type} (d : ShipmentUpdateData)
    (g : String → String → α) (s : WSState) :
    (handleShipmentUpdate d s).table.map (fun r => g r.id r.statusText) =
      s.table.map (fun r => g r.id (statusAfter d r.id r.statusText)) := by
  rw [handleShipmentUpdate_table, updateRows_pair]

/-- One event application never adds, removes or re-keys rows. -/
theorem handleShipmentUpdate_ids (d : ShipmentUpdateData) (s : WSState) :
    (handleShipmentUpdate d s).table.map (fun r => r.id) =
      s.table.map (fun r => r.id) :=
  handleShipmentUpdate_pair d (fun i _ => i) s

/-- Re-applying a well-formed update to a row is a no-op. -/
theorem rowApply_idem (eid st : String) (r : Row) :
    rowApply eid st (rowApply eid st r) = rowApply eid st r := by
  unfold rowApply
  by_cases h : r.id = eid <;> simp [h]

/-- Re-applying the detail-pane update is a no-op. -/
theorem updateDetail_idem (d : ShipmentUpdateData) (m : Option DetailModal) :
    updateDetail d (updateDetail d m) = updateDetail d m := by
  cases m with
  | none => rfl
  | some dm => by_cases h : dm.shipment_id = d.shipment_id <;> simp [updateDetail, h]

/-- Claim C10: whenever the channel's `connected` flag is false, each
outbound operation of the TFSTWebSocket client (`subscribeToShipment`,
`unsubscribeFromShipment`, `requestShipmentStatus`, `ping`) and the
periodic keep-alive tick emit nothing and leave the client state
unchanged, so the client never emits an outbound event on a disconnected
channel. -/
theorem disconnected_ops_emit_nothing (c : WSConn) (id : String)
    (h : c.connected = false) :
    subscribeToShipment id c = (c, []) ∧
    unsubscribeFromShipment id c = (c, []) ∧
    requestShipmentStatus id c = (c, []) ∧
    ping c = (c, []) ∧
    pingKeepAliveTick c = (c, []) := by
  simp [subscribeToShipment, unsubscribeFromShipment, requestShipmentStatus,
        ping, pingKeepAliveTick, h]

/-- Witness for C10 at a concrete disconnected client. -/
theorem disconnected_ops_emit_nothing_witness :
    subscribeToShipment "SHP-1" ⟨false⟩ = (⟨false⟩, []) ∧
    unsubscribeFromShipment "SHP-1" ⟨false⟩ = (⟨false⟩, []) ∧
    requestShipmentStatus "SHP-1" ⟨false⟩ = (⟨false⟩, []) ∧
    ping ⟨false⟩ = (⟨false⟩, []) ∧
    pingKeepAliveTick ⟨false⟩ = (⟨false⟩, []) :=
  disconnected_ops_emit_nothing ⟨false⟩ "SHP-1" rfl

/-- Counterexample to claim C5 as stated: an `emergency_alert` received in
a fresh session produces one modal but zero notification-queue entries —
`handleEmergencyAlert` never calls `showNotification`, so the "exactly one
notification-queue entry" half of the claim is false. -/
theorem emergency_alert_no_toast_counterexample :
    (handleEmergencyAlert ⟨"SHP-9", "Temperature breach", none⟩
      ⟨[], none, [], []⟩).modals.length = 1 ∧
    (handleEmergencyAlert ⟨"SHP-9", "Temperature breach", none⟩
      ⟨[], none, [], []⟩).toasts.length = 0 := by
  decide

/-- Claim C5 (amended): every `emergency_alert` event, in every state —
hence regardless of any subscription state — appends exactly one modal
with a static backdrop and no auto-dismissal timer (it stays until the
operator acknowledges it), and changes nothing else: in particular it
enqueues NO notification-queue entry. -/
theorem emergency_alert_modal_only (s : WSState) (d : EmergencyAlertData) :
    (handleEmergencyAlert d s).modals = s.modals ++
      [{ shipment_id := d.shipment_id, alert_message := d.alert_message,
         location := d.location, staticBackdrop := true,
         autoDismissAt := none }] ∧
    (handleEmergencyAlert d s).toasts = s.toasts ∧
    (handleEmergencyAlert d s).table = s.table ∧
    (handleEmergencyAlert d s).detailModal = s.detailModal := by
  refine ⟨rfl, rfl, rfl, rfl⟩

/-- Counterexample to claim C7 as stated: enqueue "A" at time 0 and "B" at
time 1000; the timer created for "A" fires first (5000 < 6000), the entry
it was created for is still "A", yet firing it dismisses "B" — the timer
callback closes `$('.alert').last()`, whichever entry that is at fire
time, not the entry it was created for. -/
theorem notification_timer_redirect_counterexample :
    (showNotificationEnqueue "A" 0 ⟨[]⟩).2.fireAt <
      (showNotificationEnqueue "B" 1000
        (showNotificationEnqueue "A" 0 ⟨[]⟩).1).2.fireAt ∧
    (showNotificationEnqueue "B" 1000
      (showNotificationEnqueue "A" 0 ⟨[]⟩).1).1.alerts.get?
        (showNotificationEnqueue "A" 0 ⟨[]⟩).2.createdForIndex = some "A" ∧
    (alertTimerFire (showNotificationEnqueue "B" 1000
      (showNotificationEnqueue "A" 0 ⟨[]⟩).1).1).2 = some "B" ∧
    (some "B" : Option String) ≠ some "A" := by
  decide

/-- Claim C7 (amended): every enqueue appends its entry at the end of the
DOM (FIFO arrival order) and schedules its own timer exactly 5000 time
units after its own enqueue, and a firing timer dismisses whichever alert
is last in the DOM at fire time — which is the entry the timer was created
for when no later entry is present, but is the most recent entry when a
later notification has been enqueued and not yet removed. -/
theorem notification_timer_behaviour (dom : AlertsDom) (msg : String)
    (now : Nat) (msg2 : String) (now2 : Nat) :
    (showNotificationEnqueue msg now dom).1.alerts = dom.alerts ++ [msg] ∧
    (showNotificationEnqueue msg now dom).2.fireAt = now + 5000 ∧
    (alertTimerFire (showNotificationEnqueue msg now dom).1).2 = some msg ∧
    (alertTimerFire (showNotificationEnqueue msg2 now2
      (showNotificationEnqueue msg now dom).1).1).2 = some msg2 ∧
    (alertTimerFire (showNotificationEnqueue msg2 now2
      (showNotificationEnqueue msg now dom).1).1).1.alerts =
        dom.alerts ++ [msg] := by
  refine ⟨rfl, rfl, ?_, ?_, ?_⟩
  · simp [alertTimerFire, showNotificationEnqueue]
  · simp [alertTimerFire, showNotificationEnqueue]
  · simp [alertTimerFire, showNotificationEnqueue]

/-- Counterexample to claim C2 as stated: with rows A, B, C selected and a
refresh that renders exactly B, C, D, the post-refresh selection is the
empty set — `refreshData()` reloads the page and the fresh constructor
builds `new Set()` — not the intersection required by the claim; pruning
with the already-current id set is likewise not a no-op on a nonempty
selection. -/
theorem selection_refresh_counterexample :
    refreshSelection ["A", "B", "C"] ["B", "C", "D"] = [] ∧
    specPrune ["A", "B", "C"] ["B", "C", "D"] = ["B", "C"] ∧
    refreshSelection ["A", "B", "C"] ["B", "C", "D"] ≠ ["B", "C"] ∧
    refreshSelection ["B", "C"] ["B", "C"] ≠ ["B", "C"] := by
  decide

/-- Claim C2 (amended): pruning after a table refresh always yields the
empty selection — trivially a subset of the rendered ids, as the claim's
subset half states — and refreshing with the already-current id set leaves
the selection unchanged only when the selection was already empty; any
nonempty selection is lost rather than intersected. -/
theorem selection_refresh_resets (sel rendered : List String) :
    refreshSelection sel rendered = [] ∧
    refreshSelection sel rendered ⊆ rendered ∧
    (refreshSelection sel rendered = sel ↔ sel = []) := by
  refine ⟨rfl, ?_, ?_⟩
  · intro x hx
    simp [refreshSelection, tfstShipmentsInitSelection] at hx
  · simp [refreshSelection, tfstShipmentsInitSelection, eq_comm]

/-- Witness for the amended C2 at the claim's own scenario. -/
theorem selection_refresh_resets_witness :
    refreshSelection ["A", "B", "C"] ["B", "C", "D"] = [] ∧
    refreshSelection ["A", "B", "C"] ["B", "C", "D"] ⊆ ["B", "C", "D"] ∧
    (refreshSelection ["A", "B", "C"] ["B", "C", "D"] = ["A", "B", "C"] ↔
      ["A", "B", "C"] = ([] : List String)) :=
  selection_refresh_resets ["A", "B", "C"] ["B", "C", "D"]

/-- Counterexample to claim C8 as stated: a response `{success: false}`
with no `error` field is a failure, yet the notification shown is
"Failed to update status: undefined" — the JS string coercion of the
absent field — which carries neither a server-provided message nor the
generic fallback; the `|| 'Server error'` fallback exists only in the
HTTP-error callback, not in the `success:false` branch. -/
theorem bulk_update_fallback_counterexample :
    (updateStatusCallback (.ok ⟨false, none⟩)).didRefresh = false ∧
    (updateStatusCallback (.ok ⟨false, none⟩)).notifMessage =
      "Failed to update status: undefined" ∧
    specFailureNotificationOK none
      (updateStatusCallback (.ok ⟨false, none⟩)).notifMessage = false := by
  decide

/-- Claim C8 (amended): a table refresh is triggered iff the response
indicates success; every failure shows an error-typed notification and no
refresh; a nonempty server-provided error message is carried verbatim in
the notification in both failure paths; the generic "Server error"
fallback is applied only in the HTTP-error path (while the
`success:false` path concatenates the absent field as "undefined"). -/
theorem bulk_update_callback_effects (o : AjaxOutcome) :
    (updateStatusCallback o).didRefresh = ajaxIndicatesSuccess o ∧
    (ajaxIndicatesSuccess o = false →
      (updateStatusCallback o).notifType = "error" ∧
      (updateStatusCallback o).didRefresh = false) ∧
    (∀ e, o = .ok ⟨false, some e⟩ →
      (updateStatusCallback o).notifMessage = "Failed to update status: " ++ e) ∧
    (∀ e, o = .httpError (some e) → e ≠ "" →
      (updateStatusCallback o).notifMessage = "Update failed: " ++ e) ∧
    (o = .httpError none →
      (updateStatusCallback o).notifMessage = "Update failed: Server error") := by
  refine ⟨?_, ?_, ?_, ?_, ?_⟩
  · cases o with
    | ok r =>
      cases r with
      | mk succ err => cases succ <;> rfl
    | httpError errF => rfl
  · intro hf
    cases o with
    | ok r =>
      cases r with
      | mk succ err =>
        cases succ
        · exact ⟨rfl, rfl⟩
        · simp [ajaxIndicatesSuccess] at hf
    | httpError errF => exact ⟨rfl, rfl⟩
  · intro e he
    subst he
    rfl
  · intro e he hne
    subst he
    simp [updateStatusCallback, jsOrString, hne]
  · intro he
    subst he
    rfl

/-- Witness for the amended C8 at concrete failing and succeeding
outcomes. -/
theorem bulk_update_callback_effects_witness :
    (updateStatusCallback (.ok ⟨true, none⟩)).didRefresh =
      ajaxIndicatesSuccess (.ok ⟨true, none⟩) ∧
    ((updateStatusCallback (.httpError none)).notifType = "error" ∧
      (updateStatusCallback (.httpError none)).didRefresh = false) ∧
    (updateStatusCallback (.httpError (some "Database timeout"))).notifMessage =
      "Update failed: Database timeout" ∧
    (updateStatusCallback (.httpError none)).notifMessage =
      "Update failed: Server error" :=
  ⟨(bulk_update_callback_effects (.ok ⟨true, none⟩)).1,
   (bulk_update_callback_effects (.httpError none)).2.1 rfl,
   (bulk_update_callback_effects
      (.httpError (some "Database timeout"))).2.2.2.1
     "Database timeout" rfl (by decide),
   (bulk_update_callback_effects (.httpError none)).2.2.2.2 rfl⟩

/-- Counterexample to claim C1 as stated: a status-update POST for SHP-1
is in flight, yet `handleRealtimeUpdate` for an incoming SHP-1 event
updates the rendered status immediately ("Pending" becomes "Delivered");
there is no edit-in-flight guard and no queue of deferred remote events in
the code. -/
theorem realtime_update_ignores_inflight_counterexample :
    "SHP-1" ∈ (updateShipmentStatusSend "SHP-1"
      ⟨[⟨"SHP-1", "Pending", ["badge"], false⟩], [], []⟩).inFlight ∧
    (handleRealtimeUpdate ⟨"SHP-1", some "Delivered"⟩
      (updateShipmentStatusSend "SHP-1"
        ⟨[⟨"SHP-1", "Pending", ["badge"], false⟩], [], []⟩)).table.map
      (fun r => r.statusText) = ["Delivered"] ∧
    (updateShipmentStatusSend "SHP-1"
      ⟨[⟨"SHP-1", "Pending", ["badge"], false⟩], [], []⟩).table.map
      (fun r => r.statusText) = ["Pending"] ∧
    (["Delivered"] : List String) ≠ ["Pending"] := by
  decide

/-- Claim C1 (amended): `handleRealtimeUpdate` applies every well-formed
`shipment_status_changed` event to the stored/rendered status immediately
and unconditionally: it never reads the in-flight set (the rendered table
and toasts it produces are independent of which submissions are pending,
and the in-flight set itself is untouched), every matching row shows the
event's status right away, and no queue of deferred remote events
exists. -/
theorem realtime_update_applies_immediately (s : PageState)
    (d : ShipmentUpdateData) (st : String) (h : d.current_status = some st) :
    (handleRealtimeUpdate d s).inFlight = s.inFlight ∧
    (∀ fl, (handleRealtimeUpdate d { s with inFlight := fl }).table =
        (handleRealtimeUpdate d s).table ∧
      (handleRealtimeUpdate d { s with inFlight := fl }).toasts =
        (handleRealtimeUpdate d s).toasts) ∧
    (∀ r, r ∈ (handleRealtimeUpdate d s).table → r.id = d.shipment_id →
      r.statusText = st) := by
  refine ⟨?_, ?_, ?_⟩
  · by_cases hm : s.table.any (fun r => r.id = d.shipment_id) <;>
      simp [handleRealtimeUpdate, hm, h]
  · intro fl
    by_cases hm : s.table.any (fun r => r.id = d.shipment_id) <;>
      simp [handleRealtimeUpdate, hm, h]
  · intro r hr hrid
    by_cases hm : s.table.any (fun r => r.id = d.shipment_id)
    · rw [handleRealtimeUpdate, if_pos hm, h] at hr
      simp only [List.mem_map] at hr
      obtain ⟨a, _, rfl⟩ := hr
      by_cases ha : a.id = d.shipment_id
      · simp [rowApply, ha]
      · simp only [rowApply, if_neg ha] at hrid ⊢
        exact absurd hrid ha
    · rw [handleRealtimeUpdate, if_neg hm] at hr
      simp only [List.any_eq_true, decide_eq_true_eq] at hm
      push_neg at hm
      exact absurd hrid (hm r hr)

/-- Witness for the amended C1: with a POST for SHP-1 in flight, the
incoming event still lands immediately. -/
theorem realtime_update_applies_immediately_witness :
    (handleRealtimeUpdate ⟨"SHP-1", some "Delivered"⟩
      ⟨[⟨"SHP-1", "Pending", ["badge"], false⟩], [], ["SHP-1"]⟩).inFlight =
      ["SHP-1"] ∧
    ∀ r, r ∈ (handleRealtimeUpdate ⟨"SHP-1", some "Delivered"⟩
      ⟨[⟨"SHP-1", "Pending", ["badge"], false⟩], [], ["SHP-1"]⟩).table →
      r.id = "SHP-1" → r.statusText = "Delivered" :=
  ⟨(realtime_update_applies_immediately
      ⟨[⟨"SHP-1", "Pending", ["badge"], false⟩], [], ["SHP-1"]⟩
      ⟨"SHP-1", some "Delivered"⟩ "Delivered" rfl).1,
   (realtime_update_applies_immediately
      ⟨[⟨"SHP-1", "Pending", ["badge"], false⟩], [], ["SHP-1"]⟩
      ⟨"SHP-1", some "Delivered"⟩ "Delivered" rfl).2.2⟩

/-- Counterexample to claim C3 as stated: applying the same well-formed
`shipment_status_changed` event twice yields a different rendered state
after the second application — each application appends a fresh
notification toast to the body, so after two applications two identical
toasts are displayed where one was before. -/
theorem reapply_event_not_fully_idempotent_counterexample :
    handleShipmentUpdate ⟨"SHP-1", some "In Transit"⟩
      (handleShipmentUpdate ⟨"SHP-1", some "In Transit"⟩
        ⟨[⟨"SHP-1", "Pending", ["badge"], false⟩], none, [], []⟩) ≠
    handleShipmentUpdate ⟨"SHP-1", some "In Transit"⟩
      ⟨[⟨"SHP-1", "Pending", ["badge"], false⟩], none, [], []⟩ := by
  decide

/-- Claim C3 (amended): applying the same well-formed
`shipment_status_changed` event twice is a no-op on the table, the detail
pane and the emergency modals — the stored statuses, badge classes,
highlights and detail fields after the second application are identical to
those after the first — but the toast area differs: each application
appends one more copy of the same notification. -/
theorem reapply_event_idempotent_except_toast (s : WSState)
    (d : ShipmentUpdateData) (st : String) (h : d.current_status = some st) :
    (handleShipmentUpdate d (handleShipmentUpdate d s)).table =
      (handleShipmentUpdate d s).table ∧
    (handleShipmentUpdate d (handleShipmentUpdate d s)).detailModal =
      (handleShipmentUpdate d s).detailModal ∧
    (handleShipmentUpdate d (handleShipmentUpdate d s)).modals =
      (handleShipmentUpdate d s).modals ∧
    (handleShipmentUpdate d (handleShipmentUpdate d s)).toasts =
      (handleShipmentUpdate d s).toasts ++ [notifMsg d] := by
  have h1 : ∀ t : List Row, updateRows d t = (t.map (rowApply d.shipment_id st), true) :=
    updateRows_wf d st h
  have hidem : ∀ t : List Row,
      (t.map (rowApply d.shipment_id st)).map (rowApply d.shipment_id st) =
        t.map (rowApply d.shipment_id st) := by
    intro t
    rw [List.map_map]
    exact List.map_congr_left fun a _ => rowApply_idem d.shipment_id st a
  have happ : ∀ u : WSState, handleShipmentUpdate d u =
      { u with table := u.table.map (rowApply d.shipment_id st),
               detailModal := updateDetail d u.detailModal,
               toasts := u.toasts ++ [notifMsg d] } := by
    intro u
    unfold handleShipmentUpdate
    rw [h1 u.table]
    rfl
  rw [happ, happ]
  refine ⟨hidem s.table, updateDetail_idem d _, rfl, rfl⟩

/-- Witness for the amended C3 at a concrete event and state. -/
theorem reapply_event_idempotent_except_toast_witness :
    (handleShipmentUpdate ⟨"SHP-1", some "In Transit"⟩
      (handleShipmentUpdate ⟨"SHP-1", some "In Transit"⟩
        ⟨[⟨"SHP-1", "Pending", ["badge"], false⟩], none, [], []⟩)).table =
      (handleShipmentUpdate ⟨"SHP-1", some "In Transit"⟩
        ⟨[⟨"SHP-1", "Pending", ["badge"], false⟩], none, [], []⟩).table ∧
    (handleShipmentUpdate ⟨"SHP-1", some "In Transit"⟩
      (handleShipmentUpdate ⟨"SHP-1", some "In Transit"⟩
        ⟨[⟨"SHP-1", "Pending", ["badge"], false⟩], none, [], []⟩)).toasts =
      (handleShipmentUpdate ⟨"SHP-1", some "In Transit"⟩
        ⟨[⟨"SHP-1", "Pending", ["badge"], false⟩], none, [], []⟩).toasts ++
        [notifMsg ⟨"SHP-1", some "In Transit"⟩] :=
  ⟨(reapply_event_idempotent_except_toast
      ⟨[⟨"SHP-1", "Pending", ["badge"], false⟩], none, [], []⟩
      ⟨"SHP-1", some "In Transit"⟩ "In Transit" rfl).1,
   (reapply_event_idempotent_except_toast
      ⟨[⟨"SHP-1", "Pending", ["badge"], false⟩], none, [], []⟩
      ⟨"SHP-1", some "In Transit"⟩ "In Transit" rfl).2.2.2⟩

/-- Counterexample to claim C4 as stated: a malformed event whose shipment
id matches a rendered row is not "logged and skipped": before the
TypeError aborts the handler, `removeClass()` has already stripped the
matching badge's classes, so the state after the failed application
differs from the state before it. -/
theorem malformed_event_not_skipped_counterexample :
    handleShipmentUpdate ⟨"SHP-1", none⟩
      ⟨[⟨"SHP-1", "Pending", ["badge", "status-badge", "status-pending"],
          false⟩], none, [], []⟩ ≠
    ⟨[⟨"SHP-1", "Pending", ["badge", "status-badge", "status-pending"],
        false⟩], none, [], []⟩ := by
  decide

/-- Claim C4 (amended): failures are contained per event.  Processing any
sequence of received events — containing arbitrarily many malformed ones —
is total (the reconciliation loop never crashes: each socket message is
its own event-loop task, so the uncaught TypeError aborts only the failing
application), a malformed event never changes any row's id or status text,
and every subsequent queued event is still applied: each row's final
status text is the status of the last well-formed event for its id, or its
original text when there is none.  (What a failing event does leave behind
is the stripped badge classes of the first matching row — see the
counterexample — so it is abandoned mid-application rather than cleanly
skipped, and the layer itself logs nothing.) -/
theorem failure_containment (es : List ShipmentUpdateData) (s : WSState) :
    (processEvents es s).table.map (fun r => r.id) =
      s.table.map (fun r => r.id) ∧
    (processEvents es s).table.map (fun r => r.statusText) =
      s.table.map (fun r => (lastWF es r.id).getD r.statusText) := by
  induction es generalizing s with
  | nil => simp [processEvents, lastWF]
  | cons e es ih =>
    obtain ⟨ih1, ih2⟩ := ih (handleShipmentUpdate e s)
    constructor
    · calc (processEvents (e :: es) s).table.map (fun r => r.id)
          = (handleShipmentUpdate e s).table.map (fun r => r.id) := ih1
        _ = s.table.map (fun r => r.id) := handleShipmentUpdate_ids e s
    · calc (processEvents (e :: es) s).table.map (fun r => r.statusText)
          = (handleShipmentUpdate e s).table.map
              (fun r => (lastWF es r.id).getD r.statusText) := ih2
        _ = s.table.map (fun r =>
              (lastWF es r.id).getD (statusAfter e r.id r.statusText)) :=
            handleShipmentUpdate_pair e
              (fun id status => (lastWF es id).getD status) s
        _ = s.table.map (fun r => (lastWF (e :: es) r.id).getD r.statusText) := by
            apply List.map_congr_left
            intro r _
            cases hl : lastWF es r.id with
            | some st => simp [lastWF, hl]
            | none =>
              by_cases hm : e.shipment_id = r.id
              · cases hc : e.current_status with
                | some st => simp [lastWF, hl, hc, hm, statusAfter]
                | none => simp [lastWF, hl, hc, hm, statusAfter]
              · have hm2 : ¬(r.id = e.shipment_id) := fun hh => hm hh.symm
                cases hc : e.current_status with
                | some st => simp [lastWF, hl, hc, hm, hm2, statusAfter]
                | none => simp [lastWF, hl, hc, hm, hm2, statusAfter]

/-- The tri-state recomputation, characterised for any nonempty rendered
checkbox set. -/
theorem selectAllProps_spec (rows2 : List CheckboxRow)
    (hpos : 0 < rows2.length) :
    ((selectAllProps rows2).checked = true ↔
      (countChecked rows2 = rows2.length ∧ 0 < countChecked rows2)) ∧
    ((selectAllProps rows2).indeterminate = true ↔
      (0 < countChecked rows2 ∧ countChecked rows2 < rows2.length)) ∧
    (((selectAllProps rows2).checked = false ∧
        (selectAllProps rows2).indeterminate = false) ↔
      countChecked rows2 = 0) := by
  have hle : countChecked rows2 ≤ rows2.length := List.countP_le_length _
  refine ⟨?_, ?_, ?_⟩
  · simp only [selectAllProps, beq_iff_eq]
    omega
  · simp only [selectAllProps, Bool.and_eq_true, decide_eq_true_eq]
  · simp only [selectAllProps, beq_eq_false_iff_ne, ne_eq,
      Bool.and_eq_false_iff, decide_eq_false_iff_not]
    omega

/-- Claim C6: after a single-row toggle, the `#selectAll` control is
checked iff every rendered checkbox is checked (the count is positive
because the toggled row exists), indeterminate iff the checked count is
strictly between zero and the total, and otherwise unchecked. -/
theorem select_all_tristate (rows : List CheckboxRow) (sel : List String)
    (i : Nat) (h : i < rows.length) :
    ((handleShipmentSelect rows sel i).2.2.checked = true ↔
      (countChecked (handleShipmentSelect rows sel i).1 =
          (handleShipmentSelect rows sel i).1.length ∧
        0 < countChecked (handleShipmentSelect rows sel i).1)) ∧
    ((handleShipmentSelect rows sel i).2.2.indeterminate = true ↔
      (0 < countChecked (handleShipmentSelect rows sel i).1 ∧
        countChecked (handleShipmentSelect rows sel i).1 <
          (handleShipmentSelect rows sel i).1.length)) ∧
    (((handleShipmentSelect rows sel i).2.2.checked = false ∧
        (handleShipmentSelect rows sel i).2.2.indeterminate = false) ↔
      countChecked (handleShipmentSelect rows sel i).1 = 0) := by
  have hg : rows.get? i = some (rows.get ⟨i, h⟩) := List.get?_eq_get h
  simp only [handleShipmentSelect, hg]
  exact selectAllProps_spec _ (by
    rw [List.length_set]
    exact Nat.lt_of_le_of_lt (Nat.zero_le i) h)

/-- Witness for C6: toggling the first of two rows (the second already
checked) makes every checkbox checked, so the control is checked and not
indeterminate. -/
theorem select_all_tristate_witness :
    ((handleShipmentSelect [⟨"SHP-1", false⟩, ⟨"SHP-2", true⟩] ["SHP-2"]
        0).2.2.checked = true ↔
      (countChecked (handleShipmentSelect [⟨"SHP-1", false⟩, ⟨"SHP-2", true⟩]
          ["SHP-2"] 0).1 =
        (handleShipmentSelect [⟨"SHP-1", false⟩, ⟨"SHP-2", true⟩]
          ["SHP-2"] 0).1.length ∧
       0 < countChecked (handleShipmentSelect [⟨"SHP-1", false⟩,
          ⟨"SHP-2", true⟩] ["SHP-2"] 0).1)) ∧
    ((handleShipmentSelect [⟨"SHP-1", false⟩, ⟨"SHP-2", true⟩] ["SHP-2"]
        0).2.2.indeterminate = true ↔
      (0 < countChecked (handleShipmentSelect [⟨"SHP-1", false⟩,
          ⟨"SHP-2", true⟩] ["SHP-2"] 0).1 ∧
       countChecked (handleShipmentSelect [⟨"SHP-1", false⟩, ⟨"SHP-2", true⟩]
          ["SHP-2"] 0).1 <
        (handleShipmentSelect [⟨"SHP-1", false⟩, ⟨"SHP-2", true⟩]
          ["SHP-2"] 0).1.length)) ∧
    (((handleShipmentSelect [⟨"SHP-1", false⟩, ⟨"SHP-2", true⟩] ["SHP-2"]
        0).2.2.checked = false ∧
      (handleShipmentSelect [⟨"SHP-1", false⟩, ⟨"SHP-2", true⟩] ["SHP-2"]
        0).2.2.indeterminate = false) ↔
      countChecked (handleShipmentSelect [⟨"SHP-1", false⟩, ⟨"SHP-2", true⟩]
        ["SHP-2"] 0).1 = 0) :=
  select_all_tristate [⟨"SHP-1", false⟩, ⟨"SHP-2", true⟩] ["SHP-2"] 0
    (by decide)

/-- Claim C9: applying a well-formed `shipment_status_changed` event
changes only the rows whose shipment id equals the event's id — every
other row is returned bit-for-bit unchanged — and each matching row's
rendered status becomes exactly the event's status (with the refreshed
badge classes and the transient highlight). -/
theorem event_frame_property (s : WSState) (d : ShipmentUpdateData)
    (st : String) (h : d.current_status = some st) (i : Nat) (r : Row)
    (hi : s.table.get? i = some r) :
    (r.id ≠ d.shipment_id → (handleShipmentUpdate d s).table.get? i = some r) ∧
    (r.id = d.shipment_id → (handleShipmentUpdate d s).table.get? i =
      some { r with badgeClasses := statusBadgeClasses st, statusText := st,
                    highlight := true }) := by
  have htab : (handleShipmentUpdate d s).table =
      s.table.map (rowApply d.shipment_id st) := by
    rw [handleShipmentUpdate_table, updateRows_wf d st h]
  constructor
  · intro hne
    rw [htab, List.get?_map, hi]
    simp [rowApply, hne]
  · intro heq
    rw [htab, List.get?_map, hi]
    simp [rowApply, heq]

/-- Witness for C9 at the spec's own scenario: the event for SHP-1001 sets
that row's rendered status to "In Transit" and leaves the SHP-2002 row
untouched. -/
theorem event_frame_property_witness :
    (handleShipmentUpdate ⟨"SHP-1001", some "In Transit"⟩
      ⟨[⟨"SHP-1001", "Pending", ["badge"], false⟩,
        ⟨"SHP-2002", "Delivered", ["badge"], false⟩], none, [], []⟩).table.get?
      1 = some ⟨"SHP-2002", "Delivered", ["badge"], false⟩ ∧
    (handleShipmentUpdate ⟨"SHP-1001", some "In Transit"⟩
      ⟨[⟨"SHP-1001", "Pending", ["badge"], false⟩,
        ⟨"SHP-2002", "Delivered", ["badge"], false⟩], none, [], []⟩).table.get?
      0 = some ⟨"SHP-1001", "In Transit",
        ["badge", "status-badge", "status-in-transit"], true⟩ :=
  ⟨(event_frame_property
      ⟨[⟨"SHP-1001", "Pending", ["badge"], false⟩,
        ⟨"SHP-2002", "Delivered", ["badge"], false⟩], none, [], []⟩
      ⟨"SHP-1001", some "In Transit"⟩ "In Transit" rfl 1
      ⟨"SHP-2002", "Delivered", ["badge"], false⟩ rfl).1 (by decide),
   (event_frame_property
      ⟨[⟨"SHP-1001", "Pending", ["badge"], false⟩,
        ⟨"SHP-2002", "Delivered", ["badge"], false⟩], none, [], []⟩
      ⟨"SHP-1001", some "In Transit"⟩ "In Transit" rfl 0
      ⟨"SHP-1001", "Pending", ["badge"], false⟩ rfl).2 rfl⟩

end TFST
